import Mathlib

/-!
Verification of the streaming transform-and-load engine of
`vcfs2SQLite_v1.py` (function `transform_and_load_data` and the schema of
`create_database`), against its natural-language specification.

The embedding models:
* the per-sample genotype-cell parse (lines 175-196 of the source);
* the POS coercion (line 200);
* the row expander (the per-sample loop, lines 169-219);
* the batched writer with its flush-on-capacity and rollback-on-error
  behaviour (lines 221-232 and 254-263);
* the SQLite `INSERT OR IGNORE` store under the primary key
  `(file_id, CHROM, POS)` (lines 101-116 and 224-229).

Strings are modelled by Lean `String`; Python `str.split(':')` is
embedded as the structurally recursive `pySplit ':'` (split on every
occurrence of the separator, empty parts kept).  Python's `s.isdigit()`
accepts every Unicode character of Numeric_Type Decimal or Digit, while
`int(s)` succeeds exactly on the Decimal ones — so `int` can raise
`ValueError` on an `isdigit`-true string (e.g. '²'), reaching the joint
`except ValueError` arm at lines 194-196 and the per-sample
`except Exception` skip at lines 214-217, and it parses non-ASCII
decimal digits (e.g. '٣' to 3).  Both character classes are embedded as
explicit codepoint range tables generated from CPython 3.11's Unicode
data, and the two `try`/`except` blocks are modelled by `Option`-valued
conversions (`none` = the `int` call raises).
-/

namespace VCF

/-- Splitting a character list on every occurrence of a separator:
the semantics of Python `str.split(sep)` for a one-character `sep`
(empty parts kept, the empty string yielding one empty part). -/
def splitCharsOn (sep : Char) : List Char → List (List Char)
  | [] => [[]]
  | c :: cs =>
    if c = sep then [] :: splitCharsOn sep cs
    else
      match splitCharsOn sep cs with
      | [] => [[c]]
      | p :: ps => (c :: p) :: ps

/-- Python `s.split(sep)` for a one-character separator, on strings. -/
def pySplit (sep : Char) (s : String) : List String :=
  (splitCharsOn sep s.toList).map (fun cs => String.mk cs)

/-- Codepoint ranges of the Unicode decimal digits (category Nd, the
characters Python's `int()` accepts), each range holding the digit
values 0-9 in order, so the value of a character is its codepoint minus
the range's lower bound; generated from CPython 3.11's Unicode data. -/
def pyDecimalRanges : List (Nat × Nat) :=
  [(48, 57), (1632, 1641), (1776, 1785), (1984, 1993), (2406, 2415),
   (2534, 2543), (2662, 2671), (2790, 2799), (2918, 2927), (3046, 3055),
   (3174, 3183), (3302, 3311), (3430, 3439), (3558, 3567), (3664, 3673),
   (3792, 3801), (3872, 3881), (4160, 4169), (4240, 4249), (6112, 6121),
   (6160, 6169), (6470, 6479), (6608, 6617), (6784, 6793), (6800, 6809),
   (6992, 7001), (7088, 7097), (7232, 7241), (7248, 7257),
   (42528, 42537), (43216, 43225), (43264, 43273), (43472, 43481),
   (43504, 43513), (43600, 43609), (44016, 44025), (65296, 65305),
   (66720, 66729), (68912, 68921), (69734, 69743), (69872, 69881),
   (69942, 69951), (70096, 70105), (70384, 70393), (70736, 70745),
   (70864, 70873), (71248, 71257), (71360, 71369), (71472, 71481),
   (71904, 71913), (72016, 72025), (72784, 72793), (73040, 73049),
   (73120, 73129), (92768, 92777), (92864, 92873), (93008, 93017),
   (120782, 120791), (120792, 120801), (120802, 120811),
   (120812, 120821), (120822, 120831), (123200, 123209),
   (123632, 123641), (125264, 125273), (130032, 130041)]

/-- Codepoint ranges of the characters Python's `str.isdigit()` accepts
without their being decimal digits (Numeric_Type=Digit only, e.g. '²');
`int()` raises `ValueError` on every one of them; generated from
CPython 3.11's Unicode data. -/
def pyDigitOnlyRanges : List (Nat × Nat) :=
  [(178, 179), (185, 185), (4969, 4977), (6618, 6618), (8304, 8304),
   (8308, 8313), (8320, 8329), (9312, 9320), (9332, 9340), (9352, 9360),
   (9450, 9450), (9461, 9469), (9471, 9471), (10102, 10110),
   (10112, 10120), (10122, 10130), (68160, 68163), (69216, 69224),
   (69714, 69722), (127232, 127242)]

/-- The decimal value of a character when Python's `int()` accepts it,
`none` otherwise. -/
def decDigitVal (c : Char) : Option Nat :=
  match pyDecimalRanges.find? (fun r => r.1 ≤ c.toNat && c.toNat ≤ r.2) with
  | some r => some (c.toNat - r.1)
  | none => none

/-- Python `c.isdigit()` for one character: decimal or digit-only. -/
def pyIsDigitChar (c : Char) : Bool :=
  pyDecimalRanges.any (fun r => r.1 ≤ c.toNat && c.toNat ≤ r.2) ||
  pyDigitOnlyRanges.any (fun r => r.1 ≤ c.toNat && c.toNat ≤ r.2)

/-- Python `s and s.isdigit()` / `s.isdigit()`: true iff `s` is
nonempty and every character passes `isdigit`. -/
def pyIsDigit (s : String) : Bool :=
  !s.toList.isEmpty && s.toList.all pyIsDigitChar

/-- Python `int(s)` on the strings the program feeds it: the base-10
value when every character is a Unicode decimal digit, `none`
(`ValueError`) otherwise.  Sign, whitespace and underscore characters
never pass `isdigit`, so every `int` call the program makes is of this
form. -/
def pyIntOfDigits (s : String) : Option Nat :=
  s.toList.foldl
    (fun acc c =>
      match acc, decDigitVal c with
      | some a, some v => some (a * 10 + v)
      | _, _ => none)
    (some 0)

/-- The expression `int(x) if x and x.isdigit() else None` (source
lines 192-193 and 200): `some r` when it evaluates to the value `r`,
`none` when the `int` call raises `ValueError` (an `isdigit`-true
string containing a non-decimal digit character). -/
def intIfDigit (s : String) : Option (Option Int) :=
  if pyIsDigit s then
    match pyIntOfDigits s with
    | some v => some (some (v : Int))
    | none => none
  else
    some none

/-- The `try`/`except ValueError` block at source lines 191-196: `dp`
then `gq` are converted in order; if either conversion raises, the
handler sets BOTH to `None` (a raise on `dp` skips the `gq` line, and a
raise on `gq` overwrites `dp`'s already-assigned result). -/
def parseDpGq (d q : String) : Option Int × Option Int :=
  match intIfDigit d with
  | none => (none, none)
  | some dv =>
    match intIfDigit q with
    | none => (none, none)
    | some qv => (dv, qv)

/-- The parsed per-sample genotype fields (`gt, ad, dp, gq, pl = parts`
with `dp`/`gq` converted to integers when they are all-digit strings,
source lines 188-196). -/
structure SampleCell where
  gt : String
  ad : String
  dp : Option Int
  gq : Option Int
  pl : String
deriving DecidableEq, Repr

/-- The genotype-field parse of one per-sample cell, source lines 175-196:
skip (no observation) when the cell is empty, equals "0:0:0:0:0",
equals ".:.:.:.:." or does not split on ':' into exactly 5 parts;
otherwise unpack the 5 parts, converting `dp` and `gq` to integers
exactly when each is a nonempty all-digit string. -/
def parseGT (cell : String) : Option SampleCell :=
  if cell = "" ∨ cell = "0:0:0:0:0" ∨ cell = ".:.:.:.:." then
    none
  else
    if (pySplit ':' cell).length = 5 then
      some { gt := (pySplit ':' cell).getD 0 ""
             ad := (pySplit ':' cell).getD 1 ""
             dp := (parseDpGq ((pySplit ':' cell).getD 2 "")
                     ((pySplit ':' cell).getD 3 "")).1
             gq := (parseDpGq ((pySplit ':' cell).getD 2 "")
                     ((pySplit ':' cell).getD 3 "")).2
             pl := (pySplit ':' cell).getD 4 "" }
    else
      none

/-- The POS conversion inside the `try` at source line 200,
`int(basic_data[1]) if basic_data[1].isdigit() else 0`: `some v` when
`pos_value` evaluates to `v` (the integer value of an all-decimal POS,
or 0 when POS fails the digit test), `none` when the `int` call raises
— in which case the `except Exception` at lines 214-217 skips the
sample's record. -/
def pyPosVal (s : String) : Option Int :=
  if pyIsDigit s then
    match pyIntOfDigits s with
    | some v => some ((v : Nat) : Int)
    | none => none
  else
    some 0

/-- One record appended to `batch` (source lines 201-213); the tuple
`(file_id, CHROM, POS, ID, REF, ALT, GT, AD, DP, GQ, PL)` where
`file_id` holds the sample id. -/
structure Observation where
  file_id : String
  chrom : String
  pos : Int
  id : String
  ref : String
  alt : String
  gt : String
  ad : String
  dp : Option Int
  gq : Option Int
  pl : String
deriving DecidableEq, Repr

/-- One iteration of the per-row sample loop, source lines 169-219: for
the `i`-th sample id the cell at offset `5 + i` is read only when
`i + 5 < len(row)` (otherwise `continue`); a cell whose parse is
`Absent` contributes nothing; a POS whose `int` conversion raises makes
the `except Exception` at lines 214-217 skip the sample; otherwise one
`Observation` is built from the fixed fields `row[0..4]` and the parsed
cell. -/
def sampleObs (sample_ids : List String) (row : List String) (i : Nat) :
    Option Observation :=
  if i + 5 < row.length then
    match parseGT (row.getD (i + 5) "") with
    | none => none
    | some sc =>
        match pyPosVal (row.getD 1 "") with
        | none => none
        | some p =>
            some { file_id := sample_ids.getD i ""
                   chrom := row.getD 0 ""
                   pos := p
                   id := row.getD 2 ""
                   ref := row.getD 3 ""
                   alt := row.getD 4 ""
                   gt := sc.gt
                   ad := sc.ad
                   dp := sc.dp
                   gq := sc.gq
                   pl := sc.pl }
  else
    none

/-- The whole per-row sample loop: the observations one data row yields,
in sample order. -/
def expandRow (sample_ids : List String) (row : List String) :
    List Observation :=
  (List.range sample_ids.length).filterMap (sampleObs sample_ids row)

/-- All observations an input (list of data rows) produces, in stream
order. -/
def expandAll (sample_ids : List String) (rows : List (List String)) :
    List Observation :=
  rows.foldr (fun r acc => expandRow sample_ids r ++ acc) []

/-- The primary key of the `variants` table, `(file_id, CHROM, POS)`
(source line 114). -/
def obsKey (o : Observation) : String × String × Int :=
  (o.file_id, o.chrom, o.pos)

/-- Some stored row carries this key. -/
def keyIn (k : String × String × Int) (store : List Observation) : Prop :=
  ∃ r ∈ store, obsKey r = k

instance (k : String × String × Int) (store : List Observation) :
    Decidable (keyIn k store) :=
  List.decidableBEx _ store

/-- `INSERT OR IGNORE` of one record: a record whose primary key is
already present is silently skipped, otherwise it is appended
(source line 225). -/
def insertOrIgnore (store : List Observation) (o : Observation) :
    List Observation :=
  if keyIn (obsKey o) store then store else store ++ [o]

/-- Bulk `INSERT OR IGNORE` of a record list (`executemany`). -/
def loadAll (store : List Observation) (recs : List Observation) :
    List Observation :=
  recs.foldl insertOrIgnore store

/-- The state of the batched writer: the `batch` buffer, the stored
table, and counters of flush attempts and failed flush attempts. -/
structure WriterState where
  buffer : List Observation
  store : List Observation
  flushCount : Nat
  failedFlushes : Nat
deriving DecidableEq, Repr

/-- One flush attempt (source lines 223-232 and 255-263): on success the
buffered records are bulk-inserted with `INSERT OR IGNORE`, the
transaction commits and `batch = []`; on a store error the transaction
is rolled back (store unchanged) and — since `batch = []` is only
executed on the success path — the buffer is left as it was. -/
def flushBatch (ok : Bool) (s : WriterState) : WriterState :=
  if ok then
    { s with store := loadAll s.store s.buffer
             buffer := []
             flushCount := s.flushCount + 1 }
  else
    { s with flushCount := s.flushCount + 1
             failedFlushes := s.failedFlushes + 1 }

/-- `batch.append(...)` followed by the capacity check
`if len(batch) >= batch_size` (source lines 201, 222): the record is
buffered and a flush attempt is triggered exactly when the buffer has
reached `batch_size`.  The `oracle`, indexed by the number of flush
attempts so far, says whether the store accepts that attempt. -/
def addRecord (batch_size : Nat) (oracle : Nat → Bool)
    (s : WriterState) (o : Observation) : WriterState :=
  if batch_size ≤ (s.buffer ++ [o]).length then
    flushBatch (oracle s.flushCount) { s with buffer := s.buffer ++ [o] }
  else
    { s with buffer := s.buffer ++ [o] }

/-- Feeding a stream of records to the batched writer. -/
def addAll (batch_size : Nat) (oracle : Nat → Bool)
    (s : WriterState) (recs : List Observation) : WriterState :=
  recs.foldl (addRecord batch_size oracle) s

/-- A freshly opened writer over a given store. -/
def initWriter (store : List Observation) : WriterState :=
  ⟨[], store, 0, 0⟩

/-- The loader's running counters (`total_rows`, `total_variants`,
source lines 160-161, 219, 234). -/
structure LoadStats where
  total_rows : Nat
  total_variants : Nat
deriving DecidableEq, Repr

/-- Processing one data row: `total_rows` is incremented once per row
(line 234) and `total_variants` once per observation produced
(line 219). -/
def loadStep (sample_ids : List String) (st : LoadStats)
    (row : List String) : LoadStats :=
  { total_rows := st.total_rows + 1
    total_variants := st.total_variants + (expandRow sample_ids row).length }

/-- The counters after streaming a whole input. -/
def runLoader (sample_ids : List String) (rows : List (List String)) :
    LoadStats :=
  rows.foldl (loadStep sample_ids) ⟨0, 0⟩

/-- A concrete observation (the parse of sample cell
`"0/1:10,5:30:.:99"` at CHROM 1, POS 100 for sample S1). -/
def obsA : Observation :=
  ⟨"S1", "1", 100, "rs1", "A", "G", "0/1", "10,5", some 30, none, "99"⟩

/-- A second concrete observation with a different primary key. -/
def obsB : Observation :=
  ⟨"S2", "1", 101, "rs2", "C", "T", "1/1", "3,7", none, some 12, "50"⟩

/-- A concrete well-formed data row with one sample cell. -/
def row0 : List String :=
  ["1", "100", "rs1", "A", "G", "0/1:10,5:30:90:10,0,30"]

/-- The observation `row0` yields for sample S1. -/
def obs0 : Observation :=
  ⟨"S1", "1", 100, "rs1", "A", "G", "0/1", "10,5", some 30, some 90,
   "10,0,30"⟩

/-- A well-formed data row whose POS cell is the Arabic-Indic decimal
digit '٣' (value 3), which Python's `int` parses. -/
def row1 : List String :=
  ["1", "٣", "rs1", "A", "G", "0/1:10,5:30:90:10,0,30"]

/-- The observation `row1` yields for sample S1: `pos = 3`. -/
def obs1 : Observation :=
  ⟨"S1", "1", 3, "rs1", "A", "G", "0/1", "10,5", some 30, some 90,
   "10,0,30"⟩

/-! ## Helper lemmas -/

theorem pyPosVal_nonneg {s : String} {v : Int} (h : pyPosVal s = some v) :
    0 ≤ v := by
  unfold pyPosVal at h
  split_ifs at h
  · cases hn : pyIntOfDigits s with
    | none => rw [hn] at h; cases h
    | some n =>
        rw [hn] at h
        injection h with h
        subst h
        exact Int.natCast_nonneg n
  · injection h with h
    subst h
    exact le_refl 0

theorem pyPosVal_of_not_digit {s : String} (h : pyIsDigit s = false) :
    pyPosVal s = some 0 := by
  unfold pyPosVal
  rw [h]
  rfl

theorem pyPosVal_of_decimal {s : String} {n : Nat}
    (h1 : pyIsDigit s = true) (h2 : pyIntOfDigits s = some n) :
    pyPosVal s = some ((n : Nat) : Int) := by
  unfold pyPosVal
  rw [h1, h2]
  rfl

/-- Everything a successful `sampleObs` pins down about the produced
observation. -/
theorem sampleObs_some_elim {sample_ids row : List String} {i : Nat}
    {o : Observation} (h : sampleObs sample_ids row i = some o) :
    i + 5 < row.length ∧
    parseGT (row.getD (i + 5) "") = some ⟨o.gt, o.ad, o.dp, o.gq, o.pl⟩ ∧
    pyPosVal (row.getD 1 "") = some o.pos ∧
    o.file_id = sample_ids.getD i "" ∧
    o.chrom = row.getD 0 "" ∧
    o.id = row.getD 2 "" ∧
    o.ref = row.getD 3 "" ∧
    o.alt = row.getD 4 "" := by
  unfold sampleObs at h
  by_cases hlt : i + 5 < row.length
  · rw [if_pos hlt] at h
    cases hp : parseGT (row.getD (i + 5) "") with
    | none => rw [hp] at h; cases h
    | some sc =>
        rw [hp] at h
        cases hv : pyPosVal (row.getD 1 "") with
        | none => rw [hv] at h; cases h
        | some p =>
            rw [hv] at h
            injection h with h
            subst h
            exact ⟨hlt, rfl, rfl, rfl, rfl, rfl, rfl, rfl⟩
  · rw [if_neg hlt] at h
    cases h

theorem mem_expandRow {sample_ids row : List String} {o : Observation}
    (h : o ∈ expandRow sample_ids row) :
    ∃ i, i < sample_ids.length ∧ sampleObs sample_ids row i = some o := by
  unfold expandRow at h
  obtain ⟨i, hi, hf⟩ := List.mem_filterMap.mp h
  exact ⟨i, List.mem_range.mp hi, hf⟩

theorem intIfDigit_of_not_digit {s : String} (h : pyIsDigit s = false) :
    intIfDigit s = some none := by
  unfold intIfDigit
  rw [h]
  rfl

theorem parseDpGq_fst_none {d q : String} (h : intIfDigit d = some none) :
    (parseDpGq d q).1 = none := by
  unfold parseDpGq
  rw [h]
  cases hq : intIfDigit q <;> rfl

theorem parseDpGq_snd_none {d q : String} (h : intIfDigit q = some none) :
    (parseDpGq d q).2 = none := by
  unfold parseDpGq
  cases hd : intIfDigit d
  · rfl
  · rw [h]

theorem parseDpGq_raise {d q : String}
    (h : intIfDigit d = none ∨ intIfDigit q = none) :
    parseDpGq d q = (none, none) := by
  unfold parseDpGq
  rcases h with h | h
  · rw [h]
  · cases hd : intIfDigit d
    · rfl
    · rw [h]

theorem parseDpGq_ok {d q : String} {dv qv : Option Int}
    (hd : intIfDigit d = some dv) (hq : intIfDigit q = some qv) :
    parseDpGq d q = (dv, qv) := by
  unfold parseDpGq
  rw [hd, hq]

/-! ## Claims -/

/-- C1: the genotype-field parse yields no observation (Absent) exactly
when the cell is empty, equals "0:0:0:0:0", equals ".:.:.:.:.", or does
not split on ':' into exactly 5 parts; and an Absent cell contributes
zero observations for its sample in the row expansion (no error
raised — the expansion is total). -/
theorem C1_absent_iff (cell : String) :
    (parseGT cell = none ↔
      cell = "" ∨ cell = "0:0:0:0:0" ∨ cell = ".:.:.:.:." ∨
      (pySplit ':' cell).length ≠ 5) ∧
    (∀ (sample_ids row : List String) (i : Nat),
      row.getD (i + 5) "" = cell → parseGT cell = none →
      sampleObs sample_ids row i = none) := by
  constructor
  case right =>
    intro sample_ids row i hcell hnone
    unfold sampleObs
    split_ifs with hlt
    · rw [hcell, hnone]
    · rfl
  unfold parseGT
  split_ifs with h1 h2
  · refine ⟨fun _ => ?_, fun _ => rfl⟩
    rcases h1 with h | h | h
    · exact Or.inl h
    · exact Or.inr (Or.inl h)
    · exact Or.inr (Or.inr (Or.inl h))
  · constructor
    · intro h
      cases h
    · intro h
      push_neg at h1
      rcases h with h | h | h | h
      · exact absurd h h1.1
      · exact absurd h h1.2.1
      · exact absurd h h1.2.2
      · exact absurd h2 h
  · simp [h2]

/-- Witness for C1 on the all-missing sentinel cell in a concrete row. -/
theorem C1_absent_iff_witness :
    sampleObs ["S1"] ["1", "100", "rs1", "A", "G", ".:.:.:.:."] 0 = none :=
  (C1_absent_iff ".:.:.:.:.").2 ["S1"]
    ["1", "100", "rs1", "A", "G", ".:.:.:.:."] 0 rfl (by decide)

/-- C2 counterexample: in the cell "0/1:10,5:30:.:99" sub-field 4 fails
the digit test, yet `read_depth` still parses to 30 rather than
resolving to null together with `genotype_quality`. -/
theorem C2_counterexample :
    parseGT "0/1:10,5:30:.:99" =
      some ⟨"0/1", "10,5", some 30, none, "99"⟩ ∧
    pyIsDigit "." = false ∧
    some (30 : Int) ≠ none := by
  refine ⟨by decide, by decide, by decide⟩

/-- C2 (amended): a sub-field failing the digit test resolves to null
by itself, leaving the other field unaffected; but a sub-field that
passes the digit test while not being a decimal-digit string makes the
`int` conversion raise, and then BOTH fields resolve to null together;
when neither conversion raises, each field is exactly its own
conversion's result; `genotype`, `allele_depth` and
`phred_likelihoods` are preserved verbatim. -/
theorem C2_dp_gq_fields (cell : String) (sc : SampleCell)
    (h : parseGT cell = some sc) :
    sc.gt = (pySplit ':' cell).getD 0 "" ∧
    sc.ad = (pySplit ':' cell).getD 1 "" ∧
    sc.pl = (pySplit ':' cell).getD 4 "" ∧
    (pyIsDigit ((pySplit ':' cell).getD 2 "") = false → sc.dp = none) ∧
    (pyIsDigit ((pySplit ':' cell).getD 3 "") = false → sc.gq = none) ∧
    (intIfDigit ((pySplit ':' cell).getD 2 "") = none ∨
        intIfDigit ((pySplit ':' cell).getD 3 "") = none →
      sc.dp = none ∧ sc.gq = none) ∧
    (∀ dv qv, intIfDigit ((pySplit ':' cell).getD 2 "") = some dv →
      intIfDigit ((pySplit ':' cell).getD 3 "") = some qv →
      sc.dp = dv ∧ sc.gq = qv) := by
  unfold parseGT at h
  split at h
  · cases h
  · split at h
    · injection h with h
      subst h
      refine ⟨rfl, rfl, rfl, ?_, ?_, ?_, ?_⟩
      · intro hdf
        exact parseDpGq_fst_none (intIfDigit_of_not_digit hdf)
      · intro hqf
        exact parseDpGq_snd_none (intIfDigit_of_not_digit hqf)
      · intro hor
        rw [parseDpGq_raise hor]
        exact ⟨rfl, rfl⟩
      · intro dv qv hdv hqv
        rw [parseDpGq_ok hdv hqv]
        exact ⟨rfl, rfl⟩
    · cases h

/-- Witness for C2 (amended): in "0/1:10,5:²:99:x" the sub-field '²'
passes the digit test but `int` raises, so both fields null together
even though '99' alone would parse. -/
theorem C2_dp_gq_fields_witness :
    parseGT "0/1:10,5:²:99:x" = some ⟨"0/1", "10,5", none, none, "x"⟩ ∧
    ((⟨"0/1", "10,5", none, none, "x"⟩ : SampleCell).dp = none ∧
     (⟨"0/1", "10,5", none, none, "x"⟩ : SampleCell).gq = none) :=
  ⟨by decide,
   (C2_dp_gq_fields "0/1:10,5:²:99:x" ⟨"0/1", "10,5", none, none, "x"⟩
       (by decide)).2.2.2.2.2.1 (Or.inl (by decide))⟩

/-- C6: every observation a row yields comes from a sample index whose
cell offset `5 + i` is within the row, and carries that sample's id and
that cell's parsed fields; samples whose offsets fall outside the row
contribute nothing, with no padding and no error. -/
theorem C6_offset_within_row (sample_ids row : List String)
    (o : Observation) (h : o ∈ expandRow sample_ids row) :
    ∃ i, i < sample_ids.length ∧ i + 5 < row.length ∧
      o.file_id = sample_ids.getD i "" ∧
      parseGT (row.getD (i + 5) "") = some ⟨o.gt, o.ad, o.dp, o.gq, o.pl⟩ := by
  obtain ⟨i, hi, hs⟩ := mem_expandRow h
  obtain ⟨hlt, hp, -, hid, -⟩ := sampleObs_some_elim hs
  exact ⟨i, hi, hlt, hid, hp⟩

/-- Witness for C6 on a concrete one-sample row. -/
theorem C6_offset_within_row_witness :
    ∃ i, i < (["S1"] : List String).length ∧ i + 5 < row0.length ∧
      obs0.file_id = (["S1"] : List String).getD i "" ∧
      parseGT (row0.getD (i + 5) "") =
        some ⟨obs0.gt, obs0.ad, obs0.dp, obs0.gq, obs0.pl⟩ :=
  C6_offset_within_row ["S1"] row0 obs0 (by decide)

/-- C7 counterexample: a well-formed sample cell in a row whose POS
cell is '²' — which passes Python's digit test but is rejected by
`int` — produces no stored observation at all: the sample is skipped
by the exception handler at lines 214-217 rather than stored with
pos 0. -/
theorem C7_counterexample :
    (parseGT "0/1:10,5:30:90:10,0,30").isSome = true ∧
    pyIsDigit "²" = true ∧
    pyPosVal "²" = none ∧
    expandRow ["S1"] ["1", "²", "rs1", "A", "G", "0/1:10,5:30:90:10,0,30"]
      = [] :=
  ⟨by decide, by decide, by decide, by decide⟩

/-- C7 (amended): every stored observation's `pos` is the result of
the POS conversion, hence a non-negative integer; a POS failing
Python's digit test coerces to 0 rather than failing the row; a POS of
Unicode decimal digits parses to its integer value; a POS passing the
digit test but rejected by `int` never reaches the store (its sample is
skipped, per the counterexample). -/
theorem C7_pos_stored (sample_ids row : List String) (o : Observation)
    (h : o ∈ expandRow sample_ids row) :
    pyPosVal (row.getD 1 "") = some o.pos ∧ 0 ≤ o.pos ∧
    (pyIsDigit (row.getD 1 "") = false → o.pos = 0) ∧
    (∀ n, pyIsDigit (row.getD 1 "") = true →
      pyIntOfDigits (row.getD 1 "") = some n → o.pos = ((n : Nat) : Int)) := by
  obtain ⟨i, hi, hs⟩ := mem_expandRow h
  obtain ⟨-, -, hv, -⟩ := sampleObs_some_elim hs
  refine ⟨hv, pyPosVal_nonneg hv, ?_, ?_⟩
  · intro hf
    rw [pyPosVal_of_not_digit hf] at hv
    injection hv with hv
    exact hv.symm
  · intro n h1 h2
    rw [pyPosVal_of_decimal h1 h2] at hv
    injection hv with hv
    exact hv.symm

/-- Witness for C7 (amended) on a row whose POS cell is the Arabic-Indic
digit '٣': the stored pos is 3. -/
theorem C7_pos_stored_witness :
    pyPosVal (row1.getD 1 "") = some obs1.pos ∧ 0 ≤ obs1.pos ∧
    obs1.pos = ((3 : Nat) : Int) := by
  have h := C7_pos_stored ["S1"] row1 obs1 (by decide)
  exact ⟨h.1, h.2.1, h.2.2.2 3 (by decide) (by decide)⟩

theorem sampleObs_isSome_elim {sample_ids row : List String} {i : Nat}
    (h : (sampleObs sample_ids row i).isSome = true) :
    i + 5 < row.length ∧ (parseGT (row.getD (i + 5) "")).isSome = true := by
  cases ho : sampleObs sample_ids row i with
  | none => rw [ho] at h; cases h
  | some o =>
      obtain ⟨hlt, hp, -⟩ := sampleObs_some_elim ho
      exact ⟨hlt, by rw [hp]; rfl⟩

theorem runLoader_foldl (sample_ids : List String)
    (rows : List (List String)) (st : LoadStats) :
    rows.foldl (loadStep sample_ids) st =
      ⟨st.total_rows + rows.length,
       st.total_variants +
         (rows.map (fun r => (expandRow sample_ids r).length)).sum⟩ := by
  induction rows generalizing st with
  | nil => simp
  | cons r rs ih =>
      rw [List.foldl_cons, ih]
      simp only [loadStep, List.length_cons, List.map_cons, List.sum_cons,
        LoadStats.mk.injEq]
      constructor <;> omega

theorem runLoader_total_rows (sample_ids : List String)
    (rows : List (List String)) :
    (runLoader sample_ids rows).total_rows = rows.length := by
  unfold runLoader
  rw [runLoader_foldl]
  simp

theorem runLoader_total_variants (sample_ids : List String)
    (rows : List (List String)) :
    (runLoader sample_ids rows).total_variants =
      (rows.map (fun r => (expandRow sample_ids r).length)).sum := by
  unfold runLoader
  rw [runLoader_foldl]
  simp

theorem expandRow_length_le (sample_ids row : List String) :
    (expandRow sample_ids row).length ≤ sample_ids.length := by
  unfold expandRow
  have h := List.length_filterMap_le (sampleObs sample_ids row)
    (List.range sample_ids.length)
  rwa [List.length_range] at h

theorem filterMap_full {f : α → Option β} : ∀ {l : List α},
    (l.filterMap f).length = l.length → ∀ a ∈ l, (f a).isSome = true := by
  intro l
  induction l with
  | nil => intro _ a ha; cases ha
  | cons a t ih =>
      intro h x hx
      cases hfa : f a with
      | none =>
          exfalso
          simp only [List.filterMap_cons, hfa] at h
          have hle := List.length_filterMap_le f t
          rw [List.length_cons] at h
          omega
      | some b =>
          simp only [List.filterMap_cons, hfa, List.length_cons] at h
          rcases List.mem_cons.mp hx with rfl | hmem
          · rw [hfa]; rfl
          · exact ih (by omega) x hmem

theorem sum_bound {S : Nat} {l : List Nat} (h : ∀ x ∈ l, x ≤ S) :
    l.sum ≤ l.length * S ∧
    (l.sum = l.length * S → ∀ x ∈ l, x = S) := by
  induction l with
  | nil => simp
  | cons a t ih =>
      have ha : a ≤ S := h a (List.mem_cons_self a t)
      obtain ⟨ih1, ih2⟩ := ih (fun x hx => h x (List.mem_cons_of_mem a hx))
      rw [List.sum_cons, List.length_cons, Nat.succ_mul]
      set M := t.length * S with hM
      refine ⟨by omega, ?_⟩
      intro he x hx
      have hsplit : a = S ∧ t.sum = M := by omega
      rcases List.mem_cons.mp hx with rfl | hmem
      · exact hsplit.1
      · exact ih2 hsplit.2 x hmem

/-- C10: a data row with fewer than 5 cells is processed totally: every
sample's offset test fails, the row yields zero observations, and the
row is still counted by the rows-read counter. -/
theorem C10_short_row_total (sample_ids : List String)
    (rows : List (List String)) (row : List String)
    (h1 : row ∈ rows) (h2 : row.length < 5) :
    expandRow sample_ids row = [] ∧
    (runLoader sample_ids rows).total_rows = rows.length := by
  refine ⟨?_, runLoader_total_rows _ _⟩
  unfold expandRow
  apply List.filterMap_eq_nil_iff.mpr
  intro i hi
  unfold sampleObs
  have hno : ¬ (i + 5 < row.length) := by omega
  rw [if_neg hno]

/-- Witness for C10 on a concrete two-cell row. -/
theorem C10_short_row_total_witness :
    expandRow ["S1"] ["1", "100"] = [] ∧
    (runLoader ["S1"] [["1", "100"]]).total_rows = [["1", "100"]].length :=
  C10_short_row_total ["S1"] [["1", "100"]] ["1", "100"] (by decide)
    (by decide)

/-- C5: with R data rows and S sample columns the loader produces at
most R×S observations, and reaching R×S forces every sample cell of
every row to be present (offset within the row) and to parse to a
well-formed, non-sentinel 5-part value. -/
theorem C5_count_bound (sample_ids : List String)
    (rows : List (List String)) :
    (runLoader sample_ids rows).total_variants ≤
      rows.length * sample_ids.length ∧
    ((runLoader sample_ids rows).total_variants =
        rows.length * sample_ids.length →
      ∀ row ∈ rows, ∀ i < sample_ids.length,
        i + 5 < row.length ∧
        (parseGT (row.getD (i + 5) "")).isSome = true) := by
  have hb := sum_bound (S := sample_ids.length)
    (l := rows.map (fun r => (expandRow sample_ids r).length))
    (by
      intro x hx
      obtain ⟨r, hr, rfl⟩ := List.mem_map.mp hx
      exact expandRow_length_le sample_ids r)
  rw [List.length_map] at hb
  rw [runLoader_total_variants]
  refine ⟨hb.1, ?_⟩
  intro he row hrow i hi
  have hrS : (expandRow sample_ids row).length = sample_ids.length :=
    hb.2 he _ (List.mem_map_of_mem _ hrow)
  unfold expandRow at hrS
  have hfull := filterMap_full (f := sampleObs sample_ids row)
    (l := List.range sample_ids.length)
    (by rw [List.length_range]; exact hrS)
  exact sampleObs_isSome_elim (hfull i (List.mem_range.mpr hi))

/-- Witness for C5 on a one-row, one-sample input where the bound is
attained. -/
theorem C5_count_bound_witness :
    (runLoader ["S1"] [row0]).total_variants =
      [row0].length * (["S1"] : List String).length ∧
    (0 + 5 < row0.length ∧ (parseGT (row0.getD (0 + 5) "")).isSome = true) :=
  ⟨by decide,
   (C5_count_bound ["S1"] [row0]).2 (by decide) row0 (by decide) 0
     (by decide)⟩

theorem keyIn_insertOrIgnore_self (store : List Observation)
    (o : Observation) : keyIn (obsKey o) (insertOrIgnore store o) := by
  unfold insertOrIgnore
  split_ifs with h
  · exact h
  · exact ⟨o, List.mem_append_right _ (List.mem_singleton.mpr rfl), rfl⟩

theorem keyIn_insertOrIgnore_mono {k : String × String × Int}
    {store : List Observation} (h : keyIn k store) (o : Observation) :
    keyIn k (insertOrIgnore store o) := by
  unfold insertOrIgnore
  split_ifs
  · exact h
  · obtain ⟨r, hr, hk⟩ := h
    exact ⟨r, List.mem_append_left _ hr, hk⟩

theorem keyIn_loadAll_mono {k : String × String × Int}
    {store : List Observation} (recs : List Observation)
    (h : keyIn k store) : keyIn k (loadAll store recs) := by
  induction recs generalizing store with
  | nil => exact h
  | cons a t ih => exact ih (keyIn_insertOrIgnore_mono h a)

theorem keyIn_loadAll_of_mem {o : Observation} {recs : List Observation}
    (store : List Observation) (h : o ∈ recs) :
    keyIn (obsKey o) (loadAll store recs) := by
  induction recs generalizing store with
  | nil => cases h
  | cons a t ih =>
      rcases List.mem_cons.mp h with rfl | hmem
      · exact keyIn_loadAll_mono t (keyIn_insertOrIgnore_self store o)
      · exact ih _ hmem

theorem loadAll_eq_self {store recs : List Observation}
    (h : ∀ o ∈ recs, keyIn (obsKey o) store) : loadAll store recs = store := by
  induction recs with
  | nil => rfl
  | cons a t ih =>
      have ha : insertOrIgnore store a = store := by
        unfold insertOrIgnore
        rw [if_pos (h a (List.mem_cons_self a t))]
      show loadAll (insertOrIgnore store a) t = store
      rw [ha]
      exact ih (fun o ho => h o (List.mem_cons_of_mem a ho))

/-- C3: loading the same input into the same store twice yields exactly
the same stored rows as loading it once — `INSERT OR IGNORE` under the
`(file_id, CHROM, POS)` primary key skips every duplicate key, so the
second load is a no-op. -/
theorem C3_idempotent_load (store : List Observation)
    (sample_ids : List String) (rows : List (List String)) :
    loadAll (loadAll store (expandAll sample_ids rows))
        (expandAll sample_ids rows) =
      loadAll store (expandAll sample_ids rows) :=
  loadAll_eq_self (fun _ ho => keyIn_loadAll_of_mem store ho)

/-- C4 counterexample: with capacity 1 and a failing store, the record
of the rolled-back batch is still in the buffer after the failed flush;
and when the store recovers, the next flush writes the retained record —
so rolled-back records are retained and retried, not lost. -/
theorem C4_counterexample :
    (addAll 1 (fun _ => false) (initWriter []) [obsA]).buffer = [obsA] ∧
    (addAll 1 (fun n => n != 0) (initWriter []) [obsA, obsB]).store =
      [obsA, obsB] := by
  exact ⟨by decide, by decide⟩

/-- C4 (amended): a failed flush rolls the transaction back (store
unchanged), is counted, and the run continues; the batch's records are
retained in the buffer, and the next successful flush inserts exactly
those retained records. -/
theorem C4_rollback_retains (s : WriterState) :
    (flushBatch false s).store = s.store ∧
    (flushBatch false s).buffer = s.buffer ∧
    (flushBatch false s).failedFlushes = s.failedFlushes + 1 ∧
    (flushBatch true (flushBatch false s)).store =
      loadAll s.store s.buffer ∧
    (flushBatch true (flushBatch false s)).buffer = [] := by
  simp [flushBatch]

theorem addAll_no_flush {bs : Nat} (oracle : Nat → Bool) :
    ∀ (recs : List Observation) (s : WriterState),
      s.buffer.length + recs.length < bs →
      addAll bs oracle s recs = { s with buffer := s.buffer ++ recs } := by
  intro recs
  induction recs with
  | nil =>
      intro s _
      simp [addAll]
  | cons a t ih =>
      intro s h
      rw [List.length_cons] at h
      have hno : ¬ (bs ≤ (s.buffer ++ [a]).length) := by
        rw [List.length_append, List.length_singleton]
        omega
      have hstep : addRecord bs oracle s a = { s with buffer := s.buffer ++ [a] } := by
        unfold addRecord
        rw [if_neg hno]
      show addAll bs oracle (addRecord bs oracle s a) t = _
      rw [hstep, ih { s with buffer := s.buffer ++ [a] }
        (by simp; omega)]
      simp

/-- C8: feeding exactly `batch_size` records to a fresh writer over a
store that accepts the first flush triggers no flush during the first
`batch_size - 1` adds, exactly one flush at the `batch_size`-th add, and
leaves the buffer empty immediately after. -/
theorem C8_flush_boundary (bs : Nat) (oracle : Nat → Bool)
    (store : List Observation) (recs : List Observation)
    (hbs : 1 ≤ bs) (hlen : recs.length = bs) (hok : oracle 0 = true) :
    (addAll bs oracle (initWriter store) recs).buffer = [] ∧
    (addAll bs oracle (initWriter store) recs).flushCount = 1 ∧
    (addAll bs oracle (initWriter store) (recs.take (bs - 1))).flushCount
      = 0 ∧
    (addAll bs oracle (initWriter store)
        (recs.take (bs - 1))).buffer.length = bs - 1 := by
  rcases List.eq_nil_or_concat recs with rfl | ⟨l, b, rfl⟩
  · rw [List.length_nil] at hlen
    omega
  · rw [List.concat_eq_append] at hlen ⊢
    rw [List.length_append, List.length_singleton] at hlen
    have hl : l.length = bs - 1 := by omega
    have htake : (l ++ [b]).take (bs - 1) = l := by
      rw [← hl]
      exact List.take_left l [b]
    have hsmall : (initWriter store).buffer.length + l.length < bs := by
      simp [initWriter]
      omega
    have hpart : addAll bs oracle (initWriter store) l =
        { initWriter store with buffer := [] ++ l } :=
      addAll_no_flush oracle l (initWriter store) hsmall
    have hbufl : (addAll bs oracle (initWriter store) l).buffer = l := by
      rw [hpart]
      simp
    have hfc : (addAll bs oracle (initWriter store) l).flushCount = 0 := by
      rw [hpart]
      rfl
    have hff : (addAll bs oracle (initWriter store) l).failedFlushes = 0 := by
      rw [hpart]
      rfl
    have hst : (addAll bs oracle (initWriter store) l).store = store := by
      rw [hpart]
      rfl
    have hfinal : addAll bs oracle (initWriter store) (l ++ [b]) =
        addRecord bs oracle (addAll bs oracle (initWriter store) l) b := by
      unfold addAll
      rw [List.foldl_append]
      rfl
    have hcap : bs ≤ ((addAll bs oracle (initWriter store) l).buffer ++ [b]).length := by
      rw [hbufl, List.length_append, List.length_singleton]
      omega
    rw [hfinal]
    unfold addRecord
    rw [if_pos hcap, hfc, hok]
    unfold flushBatch
    rw [if_pos rfl]
    refine ⟨rfl, rfl, ?_, ?_⟩
    · rw [htake]
      exact hfc
    · rw [htake, hbufl, hl]

/-- Witness for C8 with capacity 1 and one record. -/
theorem C8_flush_boundary_witness :
    (addAll 1 (fun _ => true) (initWriter []) [obsA]).buffer = [] ∧
    (addAll 1 (fun _ => true) (initWriter []) [obsA]).flushCount = 1 ∧
    (addAll 1 (fun _ => true) (initWriter [])
        ([obsA].take (1 - 1))).flushCount = 0 ∧
    (addAll 1 (fun _ => true) (initWriter [])
        ([obsA].take (1 - 1))).buffer.length = 1 - 1 :=
  C8_flush_boundary 1 (fun _ => true) [] [obsA] (by decide) (by decide)
    rfl

/-- C9 counterexample: with capacity 1 and a store that rejects every
flush, two adds leave 2 records in the buffer — a reachable state whose
buffer exceeds `batch_size`. -/
theorem C9_counterexample :
    (addAll 1 (fun _ => false) (initWriter []) [obsA, obsB]).buffer.length
      = 2 ∧
    ¬ (addAll 1 (fun _ => false) (initWriter [])
        [obsA, obsB]).buffer.length ≤ 1 := by
  exact ⟨by decide, by decide⟩

theorem addAll_buffer_bound {bs : Nat} (oracle : Nat → Bool) :
    ∀ (recs : List Observation) (s : WriterState),
      s.buffer.length ≤ bs + s.failedFlushes →
      (addAll bs oracle s recs).buffer.length ≤
        bs + (addAll bs oracle s recs).failedFlushes := by
  intro recs
  induction recs with
  | nil => intro s h; exact h
  | cons a t ih =>
      intro s h
      show (addAll bs oracle (addRecord bs oracle s a) t).buffer.length ≤ _
      apply ih
      unfold addRecord flushBatch
      split_ifs with h1 h2
      · simp
      · simp
        omega
      · simp at h1 ⊢
        omega

/-- C9 (amended): in every reachable state of the batched writer the
buffer holds at most `batch_size` plus the number of failed flush
attempts so far — in particular at most `batch_size` while all flushes
succeed, but a failed flush retains its batch and lets the buffer
exceed the capacity. -/
theorem C9_buffer_bound (bs : Nat) (oracle : Nat → Bool)
    (store recs : List Observation) :
    (addAll bs oracle (initWriter store) recs).buffer.length ≤
      bs + (addAll bs oracle (initWriter store) recs).failedFlushes :=
  addAll_buffer_bound oracle recs (initWriter store) (by simp [initWriter])

end VCF
